import Mathlib

/-
Shallow embedding of discogs_import.py: a script that reads a record
collection from a CSV file and uploads it to a Discogs user collection.
The network is modelled as a deterministic environment mapping each record
position to the search response and the add response the remote would give;
the orchestrator is a function producing the list of emitted requests
(the event trace) together with an optional run-terminating error.
-/

namespace DiscogsImport

/-- A record query built from one CSV data row (Artist, Title, Year columns). -/
structure RecordQuery where
  artist : String
  release_title : String
  year : String
deriving Repr, DecidableEq

/-- One element of the search results array; the code reads its id and title fields. -/
structure ResolvedRelease where
  id : Nat
  title : String
deriving Repr, DecidableEq

/-- Model of an HTTP response to the database search GET: the status code and
the optional top-level results array. none models a JSON body in which the
results field is absent. -/
structure SearchResponse where
  status : Nat
  results : Option (List ResolvedRelease)
deriving Repr, DecidableEq

/-- The two failure classes raised by the search function. -/
inductive SearchError where
  | unexpectedAPIError (status : Nat)
  | noResultsError
deriving Repr, DecidableEq

/-- Model of an HTTP response to the collection-add POST: the status code and
the optional X-Discogs-Ratelimit-Remaining header value. -/
structure AddResponse where
  status : Nat
  ratelimitRemaining : Option String
deriving Repr, DecidableEq

def API_HOST : String := "https://api.discogs.com"

def DB_API : String := API_HOST ++ "/database"

def USERS_API : String := API_HOST ++ "/users"

/-- The URL-building loop of search: starting from the search path, append
key=value ampersand pairs for each parameter, in order, with no percent
encoding (mirrors url += f-string concatenation in the source). -/
def buildSearchUrl (params : List (String × String)) : String :=
  params.foldl (fun u p => u ++ p.1 ++ "=" ++ p.2 ++ "&") (DB_API ++ "/search?")

/-- The parameter dictionary built per CSV row by get_csv_collection, in its
insertion order: artist, release_title, year, type=release, country=US. -/
def recordParams (q : RecordQuery) : List (String × String) :=
  [("artist", q.artist), ("release_title", q.release_title), ("year", q.year),
   ("type", "release"), ("country", "US")]

/-- search: classify the response. Non-200 status or a body with no results
field raises the unexpected-API error carrying the status code; an empty
results array raises the no-results error; otherwise the first result is
returned. -/
def search (res : SearchResponse) : Except SearchError ResolvedRelease :=
  match res.results with
  | none => Except.error (SearchError.unexpectedAPIError res.status)
  | some rs =>
    if res.status ≠ 200 then Except.error (SearchError.unexpectedAPIError res.status)
    else
      match rs with
      | [] => Except.error SearchError.noResultsError
      | r :: _ => Except.ok r

/-- Dictionary lookup on a row, as csv.DictReader rows behave: the error case
models a Python KeyError carrying the missing key. -/
def lookupKey (row : List (String × String)) (k : String) : Except String String :=
  match row.find? (fun p => p.1 == k) with
  | some p => Except.ok p.2
  | none => Except.error k

/-- Build the record dict for one CSV row: looks up Artist, Title, Year in
that order (the evaluation order of the dict literal in get_csv_collection);
the first missing key raises. -/
def rowToRecord (row : List (String × String)) : Except String RecordQuery := do
  let a ← lookupKey row ("Artist")
  let t ← lookupKey row ("Title")
  let y ← lookupKey row ("Year")
  pure (RecordQuery.mk a t y)

/-- A CSV table: the header row and the data rows. -/
structure CsvTable where
  header : List String
  rows : List (List String)

/-- csv.DictReader: each data row becomes an association list pairing header
column names with the row values, in header order. -/
def dictRows (t : CsvTable) : List (List (String × String)) :=
  t.rows.map (fun r => t.header.zip r)

/-- The loop of get_csv_collection: count starts at 1; rows with count up to
skip are dropped without being examined, every later row is converted and
appended. A KeyError in the conversion aborts the read. -/
def get_csv_collection_aux (skip : Int) :
    List (List (String × String)) → Int → Except String (List RecordQuery)
  | [], _ => Except.ok []
  | row :: rest, count =>
    if count ≤ skip then get_csv_collection_aux skip rest (count + 1)
    else do
      let q ← rowToRecord row
      let qs ← get_csv_collection_aux skip rest (count + 1)
      pure (q :: qs)

/-- get_csv_collection on the dict rows of a table, with the skip kwarg. -/
def get_csv_collection (rows : List (List (String × String))) (skip : Int) :
    Except String (List RecordQuery) :=
  get_csv_collection_aux skip rows 1

/-- Reference reading used to state refinements: convert the rows one by one,
in order, stopping at the first key failure. -/
def mapRows : List (List (String × String)) → Except String (List RecordQuery)
  | [] => Except.ok []
  | r :: rs => do
    let q ← rowToRecord r
    let qs ← mapRows rs
    pure (q :: qs)

/-- Digits-only reading of a nonempty character list as a natural number. -/
def digitsToNat (cs : List Char) : Option Nat :=
  if cs ≠ [] ∧ cs.all (fun c => c.isDigit) then
    some (cs.foldl (fun n c => n * 10 + (c.toNat - 48)) 0)
  else none

/-- Strip whitespace from both ends of a character list. -/
def trimChars (cs : List Char) : List Char :=
  ((cs.dropWhile (fun c => c.isWhitespace)).reverse.dropWhile
    (fun c => c.isWhitespace)).reverse

/-- Model of the Python int(string) conversion used on the rate-limit header:
optional surrounding whitespace, an optional sign, then decimal digits; any
other shape raises ValueError (the none case). -/
def parsePyInt (s : String) : Option Int :=
  match trimChars s.data with
  | '-' :: rest => (digitsToNat rest).map (fun n => -(n : Int))
  | '+' :: rest => (digitsToNat rest).map (fun n => (n : Int))
  | rest => (digitsToNat rest).map (fun n => (n : Int))

/-- headers.get of the rate-limit header with default 0, followed by int():
a missing header yields 0; a present header is parsed, and an unparseable
value is a ValueError (none). -/
def remainingCalls (h : Option String) : Option Int :=
  match h with
  | none => some 0
  | some s => parsePyInt s

/-- The observable actions of one run: a search GET with its URL, an add POST
with its URL, and the 60-second rate-limit sleep. -/
inductive Event where
  | searchReq (url : String)
  | addReq (url : String)
  | sleep60
deriving Repr, DecidableEq

/-- The ways update_discogs_collection terminates with an uncaught exception:
the explicit raise on a non-201 add, and the ValueError from int() on an
unparseable rate-limit header. -/
inductive RunError where
  | addFailed (title : String) (status : Nat)
  | valueError (header : String)
deriving Repr, DecidableEq

/-- The remote environment: for the record at each position of the collection,
the response its search would get and the response its add would get. -/
structure Env where
  searchResp : Nat → SearchResponse
  addResp : Nat → AddResponse

/-- The fixed add-endpoint URL: folder 1 of the user collection; the release
id is appended per request. -/
def addUrl (username : String) : String :=
  USERS_API ++ "/" ++ username ++ "/collection/folders/1/releases/"

/-- The loop of update_discogs_collection over the remaining collection, at
position idx with running count. On a search failure the count is incremented
and the loop continues. On a resolved release the add POST is issued; a
non-201 status raises immediately; otherwise, if count equals limit the loop
breaks; otherwise the count is incremented, the rate-limit header is read
as an integer (ValueError aborts the run), and the loop sleeps 60 seconds
before the next record when fewer than 5 calls remain. -/
def runLoop (env : Env) (username : String) (limit : Int) :
    List RecordQuery → Nat → Int → List Event × Option RunError
  | [], _, _ => ([], none)
  | q :: rest, idx, count =>
    match search (env.searchResp idx) with
    | Except.error _ =>
      let r := runLoop env username limit rest (idx + 1) (count + 1)
      (Event.searchReq (buildSearchUrl (recordParams q)) :: r.1, r.2)
    | Except.ok release =>
      let evs := [Event.searchReq (buildSearchUrl (recordParams q)),
                  Event.addReq (addUrl username ++ toString release.id)]
      if (env.addResp idx).status ≠ 201 then
        (evs, some (RunError.addFailed release.title (env.addResp idx).status))
      else if count = limit then
        (evs, none)
      else
        match remainingCalls (env.addResp idx).ratelimitRemaining with
        | none =>
          (evs, some (RunError.valueError (((env.addResp idx).ratelimitRemaining).getD (""))))
        | some rc =>
          let r := runLoop env username limit rest (idx + 1) (count + 1)
          if rc < 5 then (evs ++ Event.sleep60 :: r.1, r.2)
          else (evs ++ r.1, r.2)

/-- update_discogs_collection: run the loop from the start of the collection
with count 1. -/
def update_discogs_collection (env : Env) (username : String)
    (collection : List RecordQuery) (limit : Int) : List Event × Option RunError :=
  runLoop env username limit collection 0 1

/-- How the script process ends: a KeyError escaping the CSV read, the exit(1)
on an empty collection, or a completed orchestrator run (with its optional
uncaught error). -/
inductive MainOutcome where
  | keyError (column : String)
  | exitEmpty
  | ran (err : Option RunError)
deriving Repr, DecidableEq

/-- The main flow of the script: read the CSV collection (before any network
request is issued), exit 1 when it is empty, otherwise run the orchestrator. -/
def mainRun (env : Env) (username : String) (t : CsvTable) (skip limit : Int) :
    List Event × MainOutcome :=
  match get_csv_collection (dictRows t) skip with
  | Except.error c => ([], MainOutcome.keyError c)
  | Except.ok [] => ([], MainOutcome.exitEmpty)
  | Except.ok collection =>
    let r := update_discogs_collection env username collection limit
    (r.1, MainOutcome.ran r.2)

/-- Number of records visited by a run: each visited record issues exactly one
search request. -/
def countVisits : List Event → Nat
  | [] => 0
  | Event.searchReq _ :: rest => countVisits rest + 1
  | Event.addReq _ :: rest => countVisits rest
  | Event.sleep60 :: rest => countVisits rest

/-- The add-POST URLs of a trace, in order. -/
def addReqs : List Event → List String
  | [] => []
  | Event.addReq u :: rest => u :: addReqs rest
  | Event.searchReq _ :: rest => addReqs rest
  | Event.sleep60 :: rest => addReqs rest

/-- A sample record query for concrete runs. -/
def sampleQuery : RecordQuery := RecordQuery.mk ("A") ("T") ("2001")

/-- A sample resolved release. -/
def okRelease : ResolvedRelease := ResolvedRelease.mk 7 ("R7")

/-- A search response resolving to the sample release. -/
def respOk : SearchResponse := SearchResponse.mk 200 (some [okRelease])

/-- A search response with an empty results array. -/
def respEmpty : SearchResponse := SearchResponse.mk 200 (some [])

/-- Environment where the first search finds nothing and later ones resolve;
adds succeed with plenty of rate budget. -/
def envFailThenOk : Env :=
  Env.mk (fun i => if i = 0 then respEmpty else respOk)
    (fun _ => AddResponse.mk 201 (some ("10")))

/-- Environment where every search resolves and every add succeeds with
plenty of rate budget. -/
def envAllOk : Env :=
  Env.mk (fun _ => respOk) (fun _ => AddResponse.mk 201 (some ("10")))

/-- Environment where every search finds nothing. -/
def envAllFail : Env :=
  Env.mk (fun _ => respEmpty) (fun _ => AddResponse.mk 201 (some ("10")))

/-- Environment where adds succeed but the rate-limit header does not parse
as an integer. -/
def envBadHeader : Env :=
  Env.mk (fun _ => respOk) (fun _ => AddResponse.mk 201 (some ("NaN")))

/-- Environment where adds succeed and the rate-limit header is absent. -/
def envNoHeader : Env :=
  Env.mk (fun _ => respOk) (fun _ => AddResponse.mk 201 none)

/-- Environment where adds succeed with a low rate budget of 3. -/
def envLowRate : Env :=
  Env.mk (fun _ => respOk) (fun _ => AddResponse.mk 201 (some ("3")))

/-- Environment where every add is rejected with status 500. -/
def envAdd500 : Env :=
  Env.mk (fun _ => respOk) (fun _ => AddResponse.mk 500 (some ("10")))

end DiscogsImport

namespace DiscogsImport

theorem glue3 (a b c d s : String) (h : a ++ b ++ c = d) : a ++ (b ++ (c ++ s)) = d ++ s := by
  rw [← h, String.append_assoc, String.append_assoc]

theorem glue5 (a b c e f d s : String) (h : a ++ b ++ c ++ e ++ f = d) :
    a ++ (b ++ (c ++ (e ++ (f ++ s)))) = d ++ s := by
  rw [← h, String.append_assoc, String.append_assoc, String.append_assoc, String.append_assoc]

theorem get_csv_collection_aux_eq_drop (skip : Int) :
    ∀ (rows : List (List (String × String))) (count : Int),
      get_csv_collection_aux skip rows count = mapRows (rows.drop (skip + 1 - count).toNat) := by
  intro rows
  induction rows with
  | nil =>
    intro count
    simp [get_csv_collection_aux, List.drop_nil, mapRows]
  | cons r rest ih =>
    intro count
    simp only [get_csv_collection_aux]
    by_cases h : count ≤ skip
    · rw [if_pos h, ih (count + 1)]
      have h2 : (skip + 1 - count).toNat = (skip + 1 - (count + 1)).toNat + 1 := by omega
      rw [h2, List.drop_succ_cons]
    · rw [if_neg h]
      have h2 : (skip + 1 - count).toNat = 0 := by omega
      have h3 : (skip + 1 - (count + 1)).toNat = 0 := by omega
      rw [h2, List.drop_zero]
      simp only [mapRows]
      rw [ih (count + 1), h3, List.drop_zero]

theorem get_csv_collection_eq_drop (rows : List (List (String × String))) (skip : Int) :
    get_csv_collection rows skip = mapRows (rows.drop skip.toNat) := by
  rw [get_csv_collection, get_csv_collection_aux_eq_drop]
  have h : skip + 1 - 1 = skip := by omega
  rw [h]

/-- C9: get_csv_collection with skip N drops exactly the first N data rows,
regardless of their content, converts the remaining rows in file order, and
yields the empty list whenever N is at least the number of data rows. -/
theorem skip_drops_first_rows (rows : List (List (String × String))) (N : Nat) :
    get_csv_collection rows (N : Int) = mapRows (rows.drop N) ∧
      (rows.length ≤ N → get_csv_collection rows (N : Int) = Except.ok []) := by
  have hbase : get_csv_collection rows (N : Int) = mapRows (rows.drop N) := by
    rw [get_csv_collection_eq_drop]
    rfl
  refine ⟨hbase, fun h => ?_⟩
  rw [hbase, List.drop_eq_nil_of_le h]
  rfl

/-- C9 witness: a two-row table read with skip 3 drops everything and yields
the empty collection. -/
theorem skip_drops_first_rows_witness :
    get_csv_collection [[(("Artist" : String), ("A1" : String))], []] ((3 : Nat) : Int) =
        mapRows ([[(("Artist" : String), ("A1" : String))], []].drop 3) ∧
      get_csv_collection [[(("Artist" : String), ("A1" : String))], []] ((3 : Nat) : Int) =
        Except.ok [] := by
  have h := skip_drops_first_rows [[(("Artist" : String), ("A1" : String))], []] 3
  exact ⟨h.1, h.2 (by decide)⟩

/-- C8: the search URL is the fixed search path followed by the literal,
non-percent-encoded key=value ampersand pairs in the order artist,
release_title, year, type=release, country=US, whatever the field values. -/
theorem search_url_literal_concatenation (q : RecordQuery) :
    buildSearchUrl (recordParams q) =
      "https://api.discogs.com/database/search?artist=" ++ q.artist ++
        "&release_title=" ++ q.release_title ++ "&year=" ++ q.year ++
        "&type=release&country=US&" := by
  simp only [buildSearchUrl, recordParams, List.foldl, DB_API, API_HOST, String.append_assoc]
  rw [glue5 ("https://api.discogs.com") ("/database") ("/search?") ("artist") ("=")
        ("https://api.discogs.com/database/search?artist=") _ (by rfl)]
  rw [glue3 ("&") ("release_title") ("=") ("&release_title=") _ (by rfl)]
  rw [glue3 ("&") ("year") ("=") ("&year=") _ (by rfl)]
  rw [show ("&" ++ ("type" ++ ("=" ++ ("release" ++ ("&" ++ ("country" ++ ("=" ++ ("US" ++ "&"))))))))
        = "&type=release&country=US&" from by rfl]

/-- C8 witness: the URL for a query whose fields contain reserved URL
characters, showing the values pass into the URL unescaped. -/
theorem search_url_literal_concatenation_witness :
    buildSearchUrl (recordParams (RecordQuery.mk ("AC&DC") ("Back =? Black") ("1980"))) =
      "https://api.discogs.com/database/search?artist=AC&DC&release_title=Back =? Black&year=1980&type=release&country=US&" := by
  rw [search_url_literal_concatenation]
  rfl

end DiscogsImport

namespace DiscogsImport

/-- C5: when the head record resolves and its add POST returns a status other
than 201, the run raises immediately: the trace holds only this record's two
requests and no later record is resolved or added, whatever the limit. -/
theorem add_failure_aborts_run (env : Env) (username : String) (limit : Int)
    (q : RecordQuery) (rest : List RecordQuery) (idx : Nat) (count : Int)
    (rel : ResolvedRelease) (hs : search (env.searchResp idx) = Except.ok rel)
    (ha : (env.addResp idx).status ≠ 201) :
    runLoop env username limit (q :: rest) idx count =
      ([Event.searchReq (buildSearchUrl (recordParams q)),
        Event.addReq (addUrl username ++ toString rel.id)],
       some (RunError.addFailed rel.title (env.addResp idx).status)) := by
  simp only [runLoop, hs]
  rw [if_pos ha]

/-- C5 witness: a run against an environment whose add endpoint answers 500
aborts on the first record; the second record is never searched or added. -/
theorem add_failure_aborts_run_witness :
    runLoop envAdd500 ("u") 0 [sampleQuery, sampleQuery] 0 1 =
      ([Event.searchReq (buildSearchUrl (recordParams sampleQuery)),
        Event.addReq (addUrl ("u") ++ toString okRelease.id)],
       some (RunError.addFailed okRelease.title (envAdd500.addResp 0).status)) := by
  exact add_failure_aborts_run envAdd500 ("u") 0 sampleQuery [sampleQuery] 0 1 okRelease rfl
    (by decide)

end DiscogsImport

namespace DiscogsImport

/-- C1 counterexample: with nonzero limit 1 and a first record whose search
fails, the loop visits 2 records: the limit check is not performed on the
failure path, so limit does not bound total records visited. -/
theorem limit_check_skipped_on_failure_cex :
    countVisits (update_discogs_collection envFailThenOk ("u") [sampleQuery, sampleQuery] 1).1
      = 2 := by
  rfl

/-- C1 amended: the limit check runs only after a successful add; the failure
path increments the count and continues unconditionally. Consequently, when
every search resolves, a positive limit bounds the total records visited. -/
theorem limit_check_only_after_success (env : Env) (username : String) (limit : Int) :
    (∀ (q : RecordQuery) (rest : List RecordQuery) (idx : Nat) (count : Int) (e : SearchError),
        search (env.searchResp idx) = Except.error e →
        runLoop env username limit (q :: rest) idx count =
          (Event.searchReq (buildSearchUrl (recordParams q)) ::
              (runLoop env username limit rest (idx + 1) (count + 1)).1,
            (runLoop env username limit rest (idx + 1) (count + 1)).2)) ∧
    (1 ≤ limit → (∀ i, ∃ rel, search (env.searchResp i) = Except.ok rel) →
      ∀ collection : List RecordQuery,
        countVisits (update_discogs_collection env username collection limit).1 ≤ limit.toNat) := by
  constructor
  · intro q rest idx count e hs
    simp only [runLoop, hs]
  · intro hl hres collection
    have main : ∀ (coll : List RecordQuery) (idx : Nat) (count : Int), count ≤ limit →
        countVisits (runLoop env username limit coll idx count).1 ≤ (limit + 1 - count).toNat := by
      intro coll
      induction coll with
      | nil =>
        intro idx count h
        simp [runLoop, countVisits]
      | cons q rest ih =>
        intro idx count hcnt
        obtain ⟨rel, hrel⟩ := hres idx
        simp only [runLoop, hrel]
        by_cases ha : (env.addResp idx).status ≠ 201
        · rw [if_pos ha]
          simp [countVisits]
          omega
        · rw [if_neg ha]
          by_cases hc : count = limit
          · rw [if_pos hc]
            simp [countVisits]
            omega
          · rw [if_neg hc]
            cases hrc : remainingCalls (env.addResp idx).ratelimitRemaining with
            | none =>
              simp [countVisits]
              omega
            | some rc =>
              have hrec := ih (idx + 1) (count + 1) (by omega)
              by_cases h5 : rc < 5
              · simp only [if_pos h5, List.cons_append, List.nil_append, countVisits]
                omega
              · simp only [if_neg h5, List.cons_append, List.nil_append, countVisits]
                omega
    have h := main collection 0 1 (by omega)
    unfold update_discogs_collection
    omega

/-- C1 witness: the failure-path step with no limit check, and a three-record
all-resolving run with limit 2 visiting at most 2 records. -/
theorem limit_check_only_after_success_witness :
    (runLoop envAllFail ("u") 2 [sampleQuery] 0 1 =
      (Event.searchReq (buildSearchUrl (recordParams sampleQuery)) ::
          (runLoop envAllFail ("u") 2 [] 1 2).1,
        (runLoop envAllFail ("u") 2 [] 1 2).2)) ∧
    countVisits
        (update_discogs_collection envAllOk ("u") [sampleQuery, sampleQuery, sampleQuery] 2).1
      ≤ (2 : Int).toNat := by
  constructor
  · exact (limit_check_only_after_success envAllFail ("u") 2).1 sampleQuery [] 0 1
      SearchError.noResultsError rfl
  · exact (limit_check_only_after_success envAllOk ("u") 2).2 (by decide)
      (fun i => ⟨okRelease, rfl⟩) [sampleQuery, sampleQuery, sampleQuery]

end DiscogsImport

namespace DiscogsImport

/-- C7: after a successful add, when the rate-limit header parses to a value
below 5 the loop sleeps 60 seconds before the next record and otherwise does
not; and the rate check never runs on the search-failure path, so a run whose
searches all fail never sleeps. -/
theorem ratelimit_pause_after_success_only (env : Env) (username : String) (limit : Int) :
    (∀ (q : RecordQuery) (rest : List RecordQuery) (idx : Nat) (count : Int)
        (rel : ResolvedRelease) (v : Int),
        search (env.searchResp idx) = Except.ok rel →
        (env.addResp idx).status = 201 → count ≠ limit →
        remainingCalls (env.addResp idx).ratelimitRemaining = some v →
        runLoop env username limit (q :: rest) idx count =
          (Event.searchReq (buildSearchUrl (recordParams q)) ::
              Event.addReq (addUrl username ++ toString rel.id) ::
              (if v < 5 then
                  Event.sleep60 :: (runLoop env username limit rest (idx + 1) (count + 1)).1
                else (runLoop env username limit rest (idx + 1) (count + 1)).1),
            (runLoop env username limit rest (idx + 1) (count + 1)).2)) ∧
    (∀ (collection : List RecordQuery) (idx : Nat) (count : Int),
        (∀ i, ∃ e, search (env.searchResp i) = Except.error e) →
        Event.sleep60 ∉ (runLoop env username limit collection idx count).1) := by
  constructor
  · intro q rest idx count rel v hs ha hc hv
    simp only [runLoop, hs]
    rw [if_neg (by simp [ha]), if_neg hc]
    simp only [hv]
    by_cases h5 : v < 5
    · simp only [if_pos h5, List.cons_append, List.nil_append]
    · simp only [if_neg h5, List.cons_append, List.nil_append]
  · intro collection
    induction collection with
    | nil =>
      intro idx count hfail
      simp [runLoop]
    | cons q rest ih =>
      intro idx count hfail
      obtain ⟨e, he⟩ := hfail idx
      simp only [runLoop, he]
      simp only [List.mem_cons, not_or]
      exact ⟨by simp, ih (idx + 1) (count + 1) hfail⟩

/-- C7 witness: with header value 3 the step sleeps before the next record;
a run of two records whose searches both fail never sleeps. -/
theorem ratelimit_pause_after_success_only_witness :
    (runLoop envLowRate ("u") 0 [sampleQuery, sampleQuery] 0 1 =
      (Event.searchReq (buildSearchUrl (recordParams sampleQuery)) ::
          Event.addReq (addUrl ("u") ++ toString okRelease.id) ::
          (if (3 : Int) < 5 then
              Event.sleep60 :: (runLoop envLowRate ("u") 0 [sampleQuery] 1 2).1
            else (runLoop envLowRate ("u") 0 [sampleQuery] 1 2).1),
        (runLoop envLowRate ("u") 0 [sampleQuery] 1 2).2)) ∧
    Event.sleep60 ∉ (runLoop envAllFail ("u") 0 [sampleQuery, sampleQuery] 0 1).1 := by
  constructor
  · exact (ratelimit_pause_after_success_only envLowRate ("u") 0).1 sampleQuery [sampleQuery]
      0 1 okRelease 3 rfl rfl (by decide) rfl
  · exact (ratelimit_pause_after_success_only envAllFail ("u") 0).2 [sampleQuery, sampleQuery]
      0 1 (fun i => ⟨SearchError.noResultsError, rfl⟩)

/-- C6: with limit 2 and three records whose searches resolve and whose adds
succeed, the run sends add requests for exactly the first two releases and
never visits the third record. -/
theorem limit_two_adds_first_two (env : Env) (username : String)
    (q1 q2 q3 : RecordQuery) (r1 r2 : ResolvedRelease)
    (hs1 : search (env.searchResp 0) = Except.ok r1)
    (hs2 : search (env.searchResp 1) = Except.ok r2)
    (ha1 : (env.addResp 0).status = 201)
    (ha2 : (env.addResp 1).status = 201)
    (v : Int) (hv : remainingCalls (env.addResp 0).ratelimitRemaining = some v) :
    addReqs (update_discogs_collection env username [q1, q2, q3] 2).1 =
        [addUrl username ++ toString r1.id, addUrl username ++ toString r2.id] ∧
      countVisits (update_discogs_collection env username [q1, q2, q3] 2).1 = 2 := by
  unfold update_discogs_collection
  by_cases h5 : v < 5
  · simp [runLoop, hs1, hs2, ha1, ha2, hv, h5, addReqs, countVisits]
  · simp [runLoop, hs1, hs2, ha1, ha2, hv, h5, addReqs, countVisits]

/-- C6 witness: a concrete all-resolving environment with limit 2 adds the
first two releases and visits exactly two records. -/
theorem limit_two_adds_first_two_witness :
    addReqs (update_discogs_collection envAllOk ("u") [sampleQuery, sampleQuery, sampleQuery] 2).1 =
        [addUrl ("u") ++ toString okRelease.id, addUrl ("u") ++ toString okRelease.id] ∧
      countVisits
          (update_discogs_collection envAllOk ("u") [sampleQuery, sampleQuery, sampleQuery] 2).1
        = 2 := by
  exact limit_two_adds_first_two envAllOk ("u") sampleQuery sampleQuery sampleQuery
    okRelease okRelease rfl rfl rfl rfl 10 rfl

end DiscogsImport

namespace DiscogsImport

theorem runLoop_limit_nonpos (env : Env) (username : String) (limit : Int) (hl : limit ≤ 0) :
    ∀ (coll : List RecordQuery) (idx : Nat) (count : Int), 1 ≤ count →
      runLoop env username limit coll idx count = runLoop env username 0 coll idx count := by
  intro coll
  induction coll with
  | nil => intro idx count hc; rfl
  | cons q rest ih =>
    intro idx count hc
    cases hs : search (env.searchResp idx) with
    | error e =>
      simp only [runLoop, hs]
      rw [ih (idx + 1) (count + 1) (by omega)]
    | ok rel =>
      simp only [runLoop, hs]
      by_cases ha : (env.addResp idx).status ≠ 201
      · rw [if_pos ha, if_pos ha]
      · rw [if_neg ha, if_neg ha,
          if_neg (by omega : ¬ count = limit), if_neg (by omega : ¬ count = 0)]
        cases hrc : remainingCalls (env.addResp idx).ratelimitRemaining with
        | none => simp only
        | some rc =>
          simp only [ih (idx + 1) (count + 1) (by omega)]

theorem runLoop_visits_all (env : Env) (username : String) (limit : Int) (hl : limit ≤ 0)
    (hadd : ∀ i, (env.addResp i).status = 201)
    (hh : ∀ i, remainingCalls ((env.addResp i).ratelimitRemaining) ≠ none) :
    ∀ (coll : List RecordQuery) (idx : Nat) (count : Int), 1 ≤ count →
      countVisits (runLoop env username limit coll idx count).1 = coll.length := by
  intro coll
  induction coll with
  | nil => intro idx count hc; rfl
  | cons q rest ih =>
    intro idx count hc
    cases hs : search (env.searchResp idx) with
    | error e =>
      simp only [runLoop, hs, countVisits, List.length_cons]
      rw [ih (idx + 1) (count + 1) (by omega)]
    | ok rel =>
      simp only [runLoop, hs]
      rw [if_neg (by simp [hadd idx]), if_neg (by omega : ¬ count = limit)]
      cases hrc : remainingCalls (env.addResp idx).ratelimitRemaining with
      | none => exact absurd hrc (hh idx)
      | some rc =>
        have hrec := ih (idx + 1) (count + 1) (by omega)
        by_cases h5 : rc < 5
        · simp only [if_pos h5, List.cons_append, List.nil_append, countVisits,
            List.length_cons]
          omega
        · simp only [if_neg h5, List.cons_append, List.nil_append, countVisits,
            List.length_cons]
          omega

/-- C10: out-of-spec negative option values degrade exactly like the
documented defaults of 0: a nonpositive limit runs identically to limit 0
(and, when every add succeeds and every header parses, visits every record),
and a nonpositive skip reads identically to skip 0. -/
theorem nonpositive_limit_skip_degrade_gracefully (env : Env) (username : String)
    (rows : List (List (String × String))) (collection : List RecordQuery)
    (limit skip : Int) :
    (limit ≤ 0 →
      update_discogs_collection env username collection limit =
        update_discogs_collection env username collection 0) ∧
    (skip ≤ 0 → get_csv_collection rows skip = get_csv_collection rows 0) ∧
    (limit ≤ 0 → (∀ i, (env.addResp i).status = 201) →
      (∀ i, remainingCalls ((env.addResp i).ratelimitRemaining) ≠ none) →
      countVisits (update_discogs_collection env username collection limit).1 =
        collection.length) := by
  refine ⟨fun hl => ?_, fun hsk => ?_, fun hl hadd hh => ?_⟩
  · exact runLoop_limit_nonpos env username limit hl collection 0 1 (by omega)
  · rw [get_csv_collection_eq_drop, get_csv_collection_eq_drop]
    have h : skip.toNat = (0 : Int).toNat := by omega
    rw [h]
  · exact runLoop_visits_all env username limit hl hadd hh collection 0 1 (by omega)

/-- C10 witness: limit and skip of -1 behave like 0 on a concrete run, and
the nonpositive-limit run visits all records of a two-record collection. -/
theorem nonpositive_limit_skip_degrade_gracefully_witness :
    (update_discogs_collection envAllOk ("u") [sampleQuery, sampleQuery] (-1) =
      update_discogs_collection envAllOk ("u") [sampleQuery, sampleQuery] 0) ∧
    (get_csv_collection [[(("Artist" : String), ("A1" : String))]] (-1) =
      get_csv_collection [[(("Artist" : String), ("A1" : String))]] 0) ∧
    countVisits (update_discogs_collection envAllOk ("u") [sampleQuery, sampleQuery] (-1)).1 =
      [sampleQuery, sampleQuery].length := by
  have h := nonpositive_limit_skip_degrade_gracefully envAllOk ("u")
    [[(("Artist" : String), ("A1" : String))]] [sampleQuery, sampleQuery] (-1) (-1)
  exact ⟨h.1 (by decide), h.2.1 (by decide),
    h.2.2 (by decide) (fun i => rfl)
      (fun i => (by decide : remainingCalls (some ("10")) ≠ none))⟩

/-- C2 counterexample: a present but unparseable rate-limit header value is
not taken as 0: the run raises a ValueError and does not pause. -/
theorem unparseable_ratelimit_header_cex :
    (update_discogs_collection envBadHeader ("u") [sampleQuery] 0).2 =
        some (RunError.valueError ("NaN")) ∧
      Event.sleep60 ∉ (update_discogs_collection envBadHeader ("u") [sampleQuery] 0).1 := by
  exact ⟨rfl, by decide⟩

/-- C2 amended: after a successful add, a missing rate-limit header is taken
as 0 so the run pauses and continues, but a present header that does not
parse as an integer raises a ValueError that terminates the run. -/
theorem ratelimit_header_missing_zero_unparseable_raises (env : Env) (username : String)
    (q : RecordQuery) (rel : ResolvedRelease)
    (hs : search (env.searchResp 0) = Except.ok rel)
    (ha : (env.addResp 0).status = 201) :
    ((env.addResp 0).ratelimitRemaining = none →
      update_discogs_collection env username [q] 0 =
        ([Event.searchReq (buildSearchUrl (recordParams q)),
          Event.addReq (addUrl username ++ toString rel.id), Event.sleep60], none)) ∧
    (∀ s, (env.addResp 0).ratelimitRemaining = some s → parsePyInt s = none →
      update_discogs_collection env username [q] 0 =
        ([Event.searchReq (buildSearchUrl (recordParams q)),
          Event.addReq (addUrl username ++ toString rel.id)],
         some (RunError.valueError s))) := by
  constructor
  · intro hn
    simp [update_discogs_collection, runLoop, hs, ha, hn, remainingCalls]
  · intro s hsome hparse
    simp [update_discogs_collection, runLoop, hs, ha, hsome, remainingCalls, hparse]

/-- C2 witness: the missing-header case pauses and succeeds; an unparseable
header value raises. -/
theorem ratelimit_header_missing_zero_unparseable_raises_witness :
    (update_discogs_collection envNoHeader ("u") [sampleQuery] 0 =
      ([Event.searchReq (buildSearchUrl (recordParams sampleQuery)),
        Event.addReq (addUrl ("u") ++ toString okRelease.id), Event.sleep60], none)) ∧
    (update_discogs_collection envBadHeader ("u") [sampleQuery] 0 =
      ([Event.searchReq (buildSearchUrl (recordParams sampleQuery)),
        Event.addReq (addUrl ("u") ++ toString okRelease.id)],
       some (RunError.valueError ("NaN")))) := by
  constructor
  · exact (ratelimit_header_missing_zero_unparseable_raises envNoHeader ("u") sampleQuery
      okRelease rfl rfl).1 rfl
  · exact (ratelimit_header_missing_zero_unparseable_raises envBadHeader ("u") sampleQuery
      okRelease rfl rfl).2 ("NaN") rfl (by decide)

/-- C4: search classifies its response three ways: non-200 status or a body
with no results field raises the unexpected-API error carrying the status
code; an empty results array raises the no-results error; otherwise the first
element of results is returned verbatim. -/
theorem search_response_classification (res : SearchResponse) :
    (res.status ≠ 200 ∨ res.results = none →
      search res = Except.error (SearchError.unexpectedAPIError res.status)) ∧
    (res.status = 200 → res.results = some [] →
      search res = Except.error SearchError.noResultsError) ∧
    (∀ (r : ResolvedRelease) (rs : List ResolvedRelease),
      res.status = 200 → res.results = some (r :: rs) → search res = Except.ok r) := by
  refine ⟨fun h => ?_, fun h200 hemp => ?_, fun r rs h200 hres => ?_⟩
  · cases hr : res.results with
    | none => simp [search, hr]
    | some rs =>
      rcases h with h | h
      · cases rs with
        | nil => simp [search, hr, h]
        | cons a l => simp [search, hr, h]
      · exact absurd hr (by simp [h])
  · simp [search, hemp, h200]
  · simp [search, hres, h200]

/-- C4 witness: the three classifications at concrete responses. -/
theorem search_response_classification_witness :
    (search (SearchResponse.mk 500 none) =
      Except.error (SearchError.unexpectedAPIError 500)) ∧
    (search respEmpty = Except.error SearchError.noResultsError) ∧
    (search respOk = Except.ok okRelease) := by
  refine ⟨?_, ?_, ?_⟩
  · exact (search_response_classification (SearchResponse.mk 500 none)).1 (Or.inl (by decide))
  · exact (search_response_classification respEmpty).2.1 rfl rfl
  · exact (search_response_classification respOk).2.2 okRelease [] rfl rfl

end DiscogsImport

namespace DiscogsImport

/-- C3 counterexample: a table whose header lacks the Artist column but has
no data rows is read without any key-lookup failure: get_csv_collection
returns the empty list and the script exits on the empty collection. -/
theorem missing_column_empty_table_cex :
    get_csv_collection (dictRows (CsvTable.mk [("Title" : String), ("Year" : String)] [])) 0 =
        Except.ok [] ∧
      (("Artist" : String) ∉ [("Title" : String), ("Year" : String)]) ∧
      mainRun envAllOk ("u") (CsvTable.mk [("Title" : String), ("Year" : String)] []) 0 0 =
        ([], MainOutcome.exitEmpty) := by
  exact ⟨rfl, by decide, rfl⟩

/-- C3 amended: when the header lacks one of the required columns Artist,
Title, Year and at least one data row survives the skip, reading fails with a
key-lookup failure and the script makes no network request, whatever the
rows contain. -/
theorem missing_column_read_fails_before_network (env : Env) (username : String)
    (t : CsvTable) (skip limit : Int) (c : String)
    (hc : c ∈ [("Artist" : String), ("Title" : String), ("Year" : String)])
    (hmiss : c ∉ t.header) (hrows : skip.toNat < t.rows.length) :
    ∃ e, mainRun env username t skip limit = ([], MainOutcome.keyError e) := by
  have hlen : skip.toNat < (dictRows t).length := by
    simpa [dictRows] using hrows
  obtain ⟨row, rest, hdrop⟩ : ∃ row rest, (dictRows t).drop skip.toNat = row :: rest := by
    cases hd : (dictRows t).drop skip.toNat with
    | nil =>
      exfalso
      have hlen2 := congrArg List.length hd
      simp [List.length_drop] at hlen2
      omega
    | cons a l => exact ⟨a, l, rfl⟩
  have hrowmem : row ∈ dictRows t :=
    List.mem_of_mem_drop (by rw [hdrop]; exact List.mem_cons_self _ _)
  obtain ⟨data, hdata, hzip⟩ := List.mem_map.mp (by simpa [dictRows] using hrowmem)
  have hkey : ∀ k v, lookupKey row k = Except.ok v → k ∈ t.header := by
    intro k v h
    unfold lookupKey at h
    cases hf : List.find? (fun p => p.1 == k) row with
    | none => rw [hf] at h; exact absurd h (by simp)
    | some p =>
      have hp : p ∈ row := List.mem_of_find?_eq_some hf
      have hpk := List.find?_some hf
      have hk : p.1 = k := by simpa using hpk
      rw [← hzip] at hp
      have hmem := List.of_mem_zip (show (p.1, p.2) ∈ t.header.zip data by simpa using hp)
      rw [hk] at hmem
      exact hmem.1
  have hrtr : ∃ e, rowToRecord row = Except.error e := by
    cases hA : lookupKey row ("Artist") with
    | error e => exact ⟨e, by simp only [rowToRecord]; rw [hA]; rfl⟩
    | ok a =>
      cases hT : lookupKey row ("Title") with
      | error e => exact ⟨e, by simp only [rowToRecord]; rw [hA, hT]; rfl⟩
      | ok b =>
        cases hY : lookupKey row ("Year") with
        | error e => exact ⟨e, by simp only [rowToRecord]; rw [hA, hT, hY]; rfl⟩
        | ok y =>
          exfalso
          have hAh := hkey _ _ hA
          have hTh := hkey _ _ hT
          have hYh := hkey _ _ hY
          simp only [List.mem_cons, List.not_mem_nil, or_false] at hc
          rcases hc with rfl | rfl | rfl
          · exact hmiss hAh
          · exact hmiss hTh
          · exact hmiss hYh
  obtain ⟨e, he⟩ := hrtr
  refine ⟨e, ?_⟩
  have hg : get_csv_collection (dictRows t) skip = Except.error e := by
    rw [get_csv_collection_eq_drop, hdrop]
    simp only [mapRows]
    rw [he]
    rfl
  simp only [mainRun]
  rw [hg]

/-- C3 witness: a one-row table whose header lacks Artist is read to a
key-lookup failure with no request issued. -/
theorem missing_column_read_fails_before_network_witness :
    ∃ e, mainRun envAllOk ("u")
        (CsvTable.mk [("Title" : String), ("Year" : String)] [[("X" : String), ("1999" : String)]])
        0 0 = ([], MainOutcome.keyError e) := by
  exact missing_column_read_fails_before_network envAllOk ("u")
    (CsvTable.mk [("Title" : String), ("Year" : String)] [[("X" : String), ("1999" : String)]])
    0 0 ("Artist") (by decide) (by decide) (by decide)

end DiscogsImport
